import Mathlib

/-!
Shallow embedding of the grainlify resilience core
(`contracts/program-escrow/src/threshold_monitor.rs` and the retry /
circuit-breaker layer specified in the design document), together with
theorems settling the specification claims against it.

Machine integers are modelled as `Nat` (u32/u64) and `Int` (i128); the
only place the source performs explicitly saturating arithmetic
(`i128::saturating_add` in `record_outflow`) is modelled with the exact
i128 saturation bounds.  Persistent contract storage is modelled as an
explicit record of `Option` fields, mirroring the `ThresholdKey` keyed
store; the ledger timestamp is passed as an explicit `now : Nat`.
-/

namespace Grainlify

/-- i128::MAX -/
def I128_MAX : Int := 2 ^ 127 - 1

/-- i128::MIN -/
def I128_MIN : Int := -(2 ^ 127)

/-- `i128::saturating_add` -/
def satAddI128 (a b : Int) : Int := max I128_MIN (min I128_MAX (a + b))

/-- `ThresholdConfig` from `threshold_monitor.rs`. -/
structure ThresholdConfig where
  failure_rate_threshold : Nat     -- u32
  outflow_volume_threshold : Int   -- i128
  max_single_payout : Int          -- i128
  time_window_secs : Nat           -- u64
  cooldown_period_secs : Nat       -- u64
  cooldown_multiplier : Nat        -- u32
  deriving Repr, DecidableEq

/-- `ThresholdConfig::default()` -/
def ThresholdConfig.default : ThresholdConfig :=
  { failure_rate_threshold := 10
    outflow_volume_threshold := 50000000000000
    max_single_payout := 5000000000000
    time_window_secs := 600
    cooldown_period_secs := 300
    cooldown_multiplier := 2 }

/-- `ThresholdConfig::validate()` — note: it checks five ranges and does
not inspect `cooldown_multiplier`. -/
def ThresholdConfig.validate (c : ThresholdConfig) : Except String Unit :=
  if c.failure_rate_threshold = 0 ∨ c.failure_rate_threshold > 1000 then
    .error "Failure threshold must be between 1 and 1000"
  else if c.outflow_volume_threshold ≤ 0 then
    .error "Outflow threshold must be greater than zero"
  else if c.max_single_payout ≤ 0 then
    .error "Max single payout must be greater than zero"
  else if c.time_window_secs < 10 ∨ c.time_window_secs > 86400 then
    .error "Time window must be between 10 and 86400 seconds"
  else if c.cooldown_period_secs < 60 ∨ c.cooldown_period_secs > 3600 then
    .error "Cooldown period must be between 60 and 3600 seconds"
  else
    .ok ()

/-- `WindowMetrics` from `threshold_monitor.rs`. -/
structure WindowMetrics where
  window_start : Nat        -- u64
  failure_count : Nat       -- u32
  success_count : Nat       -- u32
  total_outflow : Int       -- i128
  max_single_outflow : Int  -- i128
  breach_count : Nat        -- u32
  deriving Repr, DecidableEq

/-- `WindowMetrics::new(window_start)` -/
def WindowMetrics.new (window_start : Nat) : WindowMetrics :=
  { window_start := window_start
    failure_count := 0
    success_count := 0
    total_outflow := 0
    max_single_outflow := 0
    breach_count := 0 }

/-- `ThresholdBreach`; the `Symbol` metric tag is modelled as a string. -/
structure ThresholdBreach where
  metric_type : String
  threshold_value : Int
  actual_value : Int
  timestamp : Nat
  breach_count : Nat
  deriving Repr, DecidableEq

/-- `ERR_INVALID_THRESHOLD_CONFIG` -/
def ERR_INVALID_THRESHOLD_CONFIG : Nat := 2002

/-- The persistent store keyed by `ThresholdKey`: one `Option` field per key. -/
structure Storage where
  config : Option ThresholdConfig
  currentMetrics : Option WindowMetrics
  previousMetrics : Option WindowMetrics
  lastCooldownEnd : Option Nat      -- u64
  cooldownMultiplier : Option Nat   -- u32
  deriving Repr, DecidableEq

/-- The empty store (before `init_threshold_monitor`). -/
def Storage.empty : Storage :=
  { config := none, currentMetrics := none, previousMetrics := none
    lastCooldownEnd := none, cooldownMultiplier := none }

/-- `get_threshold_config`: stored config or the default. -/
def get_threshold_config (s : Storage) : ThresholdConfig :=
  s.config.getD ThresholdConfig.default

/-- `get_current_metrics`: stored metrics or a fresh window at `now`. -/
def get_current_metrics (s : Storage) (now : Nat) : WindowMetrics :=
  s.currentMetrics.getD (WindowMetrics.new now)

/-- `get_cooldown_multiplier`: stored multiplier or 1. -/
def get_cooldown_multiplier (s : Storage) : Nat :=
  s.cooldownMultiplier.getD 1

/-- `set_threshold_config`: validate, then store; on validation failure the
store is untouched and `ERR_INVALID_THRESHOLD_CONFIG` is returned. -/
def set_threshold_config (s : Storage) (c : ThresholdConfig) :
    Storage × Except Nat Unit :=
  match c.validate with
  | .error _ => (s, .error ERR_INVALID_THRESHOLD_CONFIG)
  | .ok _ => ({ s with config := some c }, .ok ())

/-- `rotate_window_if_needed`: if the current window has expired, archive it
as `PreviousMetrics` and start a fresh window at `now`. -/
def rotate_window_if_needed (s : Storage) (now : Nat) : Storage :=
  let config := get_threshold_config s
  let metrics := get_current_metrics s now
  let window_end := metrics.window_start + config.time_window_secs
  if now ≥ window_end then
    { s with previousMetrics := some metrics
             currentMetrics := some (WindowMetrics.new now) }
  else s

/-- `record_operation_success` -/
def record_operation_success (s : Storage) (now : Nat) : Storage :=
  let s := rotate_window_if_needed s now
  let m := get_current_metrics s now
  { s with currentMetrics := some { m with success_count := m.success_count + 1 } }

/-- `record_operation_failure` -/
def record_operation_failure (s : Storage) (now : Nat) : Storage :=
  let s := rotate_window_if_needed s now
  let m := get_current_metrics s now
  { s with currentMetrics := some { m with failure_count := m.failure_count + 1 } }

/-- `record_outflow` -/
def record_outflow (s : Storage) (now : Nat) (amount : Int) : Storage :=
  let s := rotate_window_if_needed s now
  let m := get_current_metrics s now
  let m := { m with total_outflow := satAddI128 m.total_outflow amount }
  let m := if amount > m.max_single_outflow
           then { m with max_single_outflow := amount } else m
  { s with currentMetrics := some m }

/-- `check_thresholds`: rotate, then test the three thresholds in priority
order, returning the first breach. -/
def check_thresholds (s : Storage) (now : Nat) :
    Storage × Except ThresholdBreach Unit :=
  let s := rotate_window_if_needed s now
  let config := get_threshold_config s
  let metrics := get_current_metrics s now
  if metrics.failure_count ≥ config.failure_rate_threshold then
    (s, .error { metric_type := "failure"
                 threshold_value := (config.failure_rate_threshold : Int)
                 actual_value := (metrics.failure_count : Int)
                 timestamp := now
                 breach_count := metrics.breach_count + 1 })
  else if metrics.total_outflow ≥ config.outflow_volume_threshold then
    (s, .error { metric_type := "outflow"
                 threshold_value := config.outflow_volume_threshold
                 actual_value := metrics.total_outflow
                 timestamp := now
                 breach_count := metrics.breach_count + 1 })
  else if metrics.max_single_outflow ≥ config.max_single_payout then
    (s, .error { metric_type := "single"
                 threshold_value := config.max_single_payout
                 actual_value := metrics.max_single_outflow
                 timestamp := now
                 breach_count := metrics.breach_count + 1 })
  else
    (s, .ok ())

/-- `check_single_payout_threshold`: compares the prospective `amount`
against `max_single_payout`; issues no store writes (the storage is passed
through unchanged, exactly as the source performs no `set`). -/
def check_single_payout_threshold (s : Storage) (now : Nat) (amount : Int) :
    Storage × Except ThresholdBreach Unit :=
  let config := get_threshold_config s
  let metrics := get_current_metrics s now
  if amount ≥ config.max_single_payout then
    (s, .error { metric_type := "single"
                 threshold_value := config.max_single_payout
                 actual_value := amount
                 timestamp := now
                 breach_count := metrics.breach_count + 1 })
  else
    (s, .ok ())

/-- `is_cooldown_active`: `now < last_cooldown_end` (0 when absent). -/
def is_cooldown_active (s : Storage) (now : Nat) : Bool :=
  now < s.lastCooldownEnd.getD 0

/-- `apply_cooldown`: lockout end is `now + cooldown_period * multiplier`. -/
def apply_cooldown (s : Storage) (now : Nat) : Storage :=
  let config := get_threshold_config s
  let multiplier := get_cooldown_multiplier s
  { s with lastCooldownEnd := some (now + config.cooldown_period_secs * multiplier) }

/-- `increase_cooldown_multiplier`: multiply the stored multiplier by
`config.cooldown_multiplier`. -/
def increase_cooldown_multiplier (s : Storage) : Storage :=
  let config := get_threshold_config s
  let current := get_cooldown_multiplier s
  { s with cooldownMultiplier := some (current * config.cooldown_multiplier) }

/-- `reset_cooldown_multiplier`: back to 1. -/
def reset_cooldown_multiplier (s : Storage) : Storage :=
  { s with cooldownMultiplier := some 1 }

/-- `reset_metrics`: replace `CurrentMetrics` with a fresh window at `now`
(the admin argument only feeds the emitted event). -/
def reset_metrics (s : Storage) (now : Nat) : Storage :=
  { s with currentMetrics := some (WindowMetrics.new now) }

/-- Modelled from the spec: the `RecoveryError` taxonomy of the error
recovery layer (`error_recovery.rs` / `retry_executor.rs` are not among
the sources; only `error_recovery_tests.rs` is). -/
inductive RecoveryError where
  | NetworkTimeout | TemporaryUnavailable | RateLimitExceeded | ResourceExhausted
  | InsufficientFunds | InvalidRecipient | Unauthorized | InvalidAmount
  | PartialBatchFailure | AllBatchItemsFailed
  | MaxRetriesExceeded
  deriving Repr, DecidableEq

/-- Modelled from the spec: error classes (the source's `Partial` variant is
rendered `PartialCls`). -/
inductive ErrorClass where
  | Transient | Permanent | PartialCls
  deriving Repr, DecidableEq

/-- Modelled from the spec: `classify_error` — deterministic total mapping.
`MaxRetriesExceeded` appears in the spec only as a terminal outcome; it is
not auto-retryable, so it is classed Permanent here. -/
def classify_error : RecoveryError → ErrorClass
  | .NetworkTimeout | .TemporaryUnavailable | .RateLimitExceeded
  | .ResourceExhausted => .Transient
  | .InsufficientFunds | .InvalidRecipient | .Unauthorized
  | .InvalidAmount | .MaxRetriesExceeded => .Permanent
  | .PartialBatchFailure | .AllBatchItemsFailed => .PartialCls

/-- Modelled from the spec: `RetryConfig` (called RetryPolicy in the design
document), five numeric fields. -/
structure RetryConfig where
  max_attempts : Nat        -- u32
  initial_delay_ms : Nat    -- u64
  max_delay_ms : Nat        -- u64
  backoff_multiplier : Nat  -- u32
  jitter_percent : Nat      -- u32
  deriving Repr, DecidableEq

/-- Validity ranges of a retry policy, from the data model:
`max_attempts ≥ 1`, `initial_delay > 0`, `max_delay ≥ initial_delay`,
`backoff_multiplier ≥ 1`, `jitter_percent ≤ 100`. -/
def RetryConfig.Valid (c : RetryConfig) : Prop :=
  1 ≤ c.max_attempts ∧ 0 < c.initial_delay_ms ∧
  c.initial_delay_ms ≤ c.max_delay_ms ∧ 1 ≤ c.backoff_multiplier ∧
  c.jitter_percent ≤ 100

instance (c : RetryConfig) : Decidable c.Valid := by
  unfold RetryConfig.Valid; infer_instance

/-- Modelled from the spec: the symmetric-jitter step of the backoff
calculator.  The final delay lies in `[base*(1-j), base*(1+j)]`
(`j = jitter_percent/100`), derived from a deterministic time-based seed,
and is clamped so that it never leaves `[0, max_delay]`. -/
def applyJitter (c : RetryConfig) (base seed : Nat) : Nat :=
  let spread := base * c.jitter_percent / 100
  let offset := seed % (2 * spread + 1)
  min (base - spread + offset) c.max_delay_ms

/-- Modelled from the spec: `calculate_backoff_delay(policy, attempt_index,
time_source)`.  Base formula
`min(initial_delay * backoff_multiplier ^ attempt_index, max_delay)` with
saturating (here: unbounded `Nat`) exponentiation; jitter applied only when
`jitter_percent > 0`, seeded from `(current time, attempt index)`. -/
def calculate_backoff_delay (c : RetryConfig) (attempt : Nat) (now : Nat) : Nat :=
  let base := min (c.initial_delay_ms * c.backoff_multiplier ^ attempt) c.max_delay_ms
  if c.jitter_percent = 0 then base
  else applyJitter c base (now + attempt)

/-- Modelled from the spec: circuit state. -/
inductive CircuitState where
  | Closed | Open | HalfOpen
  deriving Repr, DecidableEq

/-- Modelled from the spec: per-category `CircuitBreaker` record. -/
structure CircuitBreaker where
  state : CircuitState
  failure_count : Nat      -- u32
  failure_threshold : Nat  -- u32, default 5
  success_count : Nat      -- u32
  success_threshold : Nat  -- u32
  timeout_duration : Nat   -- u64 seconds
  opened_at : Nat          -- u64
  deriving Repr, DecidableEq

/-- Modelled from the spec: `record_failure`.  Closed: increment
`failure_count`, open when it reaches `failure_threshold` (recording
`opened_at = now`); Half-Open: back to Open re-arming `opened_at`; Open:
further failures are ignored until the timeout elapses. -/
def recordFailure (b : CircuitBreaker) (now : Nat) : CircuitBreaker :=
  match b.state with
  | .Closed =>
      let fc := b.failure_count + 1
      if fc ≥ b.failure_threshold then
        { b with state := .Open, failure_count := fc, opened_at := now }
      else
        { b with failure_count := fc }
  | .HalfOpen => { b with state := .Open, opened_at := now }
  | .Open => b

/-- Modelled from the spec: `record_success`.  Closed: reset
`failure_count` to 0; Half-Open: advance the success counter, closing (and
resetting both counters) when `success_threshold` is reached; Open:
ignored. -/
def recordSuccess (b : CircuitBreaker) (_now : Nat) : CircuitBreaker :=
  match b.state with
  | .Closed => { b with failure_count := 0 }
  | .HalfOpen =>
      let sc := b.success_count + 1
      if sc ≥ b.success_threshold then
        { b with state := .Closed, failure_count := 0, success_count := 0 }
      else
        { b with success_count := sc }
  | .Open => b

/-- Modelled from the spec: `is_request_allowed`.  Closed and Half-Open
allow; Open blocks until `now ≥ opened_at + timeout_duration`, at which
point the call transitions to Half-Open (probing counter cleared) and
allows the request.  Returns the possibly-updated breaker and the verdict. -/
def is_request_allowed (b : CircuitBreaker) (now : Nat) : CircuitBreaker × Bool :=
  match b.state with
  | .Closed => (b, true)
  | .HalfOpen => (b, true)
  | .Open =>
      if now ≥ b.opened_at + b.timeout_duration then
        ({ b with state := .HalfOpen, success_count := 0 }, true)
      else (b, false)

/-- Modelled from the spec: result of a retry sequence. -/
inductive RetryResult (T : Type) where
  | Success (value : T)
  | Failed (error : RecoveryError)
  | CircuitBreakerOpen
  deriving Repr, DecidableEq

/-- Modelled from the spec: the attempt loop of `execute_with_retry`.  The
caller-supplied operation is modelled as a function from the invocation
index to its outcome.  Arguments: breaker, first attempt index, attempts
remaining.  Returns the result, the number of invocations actually made,
and the updated breaker. -/
def retryFrom {T : Type} (now : Nat) (op : Nat → Except RecoveryError T) :
    CircuitBreaker → Nat → Nat → RetryResult T × Nat × CircuitBreaker
  | b, _, 0 => (.Failed .MaxRetriesExceeded, 0, b)
  | b, i, r + 1 =>
    match op i with
    | .ok v => (.Success v, 1, recordSuccess b now)
    | .error e =>
      match classify_error e with
      | .Transient =>
          let b := recordFailure b now
          if r = 0 then (.Failed .MaxRetriesExceeded, 1, b)
          else
            let p := retryFrom now op b (i + 1) r
            (p.1, p.2.1 + 1, p.2.2)
      | _ => (.Failed e, 1, recordFailure b now)

/-- Modelled from the spec: `execute_with_retry(category, operation,
policy)`.  Consult the circuit breaker; if blocked return
`CircuitBreakerOpen` without invoking the operation, otherwise run up to
`max_attempts` attempts. -/
def execute_with_retry {T : Type} (b : CircuitBreaker) (now : Nat)
    (c : RetryConfig) (op : Nat → Except RecoveryError T) :
    RetryResult T × Nat × CircuitBreaker :=
  let pr := is_request_allowed b now
  if pr.2 then retryFrom now op pr.1 0 c.max_attempts
  else (.CircuitBreakerOpen, 0, pr.1)

/-- Whether a check result is a breach (`Err` in the source). -/
def isBreach : Except ThresholdBreach Unit → Bool
  | .error _ => true
  | .ok _ => false

/-- The five configuration ranges the data model lists and
`ThresholdConfig::validate` enforces (spec wording, for comparison with the
source's `validate`): `failure_rate_threshold` in 1..1000,
`outflow_volume_threshold > 0`, `max_single_payout > 0`, `time_window` in
10..86400 s, `cooldown_period` in 60..3600 s. -/
def CheckedRanges (c : ThresholdConfig) : Prop :=
  1 ≤ c.failure_rate_threshold ∧ c.failure_rate_threshold ≤ 1000 ∧
  0 < c.outflow_volume_threshold ∧ 0 < c.max_single_payout ∧
  10 ≤ c.time_window_secs ∧ c.time_window_secs ≤ 86400 ∧
  60 ≤ c.cooldown_period_secs ∧ c.cooldown_period_secs ≤ 3600

instance (c : ThresholdConfig) : Decidable (CheckedRanges c) := by
  unfold CheckedRanges; infer_instance

/-- A configuration with `cooldown_multiplier = 0` and every validated
field in range. -/
def badMultConfig : ThresholdConfig :=
  { failure_rate_threshold := 10, outflow_volume_threshold := 1
    max_single_payout := 1, time_window_secs := 600
    cooldown_period_secs := 300, cooldown_multiplier := 0 }

/-- Default configuration with `failure_rate_threshold` lowered to 3. -/
def frt3Config : ThresholdConfig :=
  { ThresholdConfig.default with failure_rate_threshold := 3 }

/-- A window started at time 1000 that has recorded three failures. -/
def threeFailMetrics : WindowMetrics :=
  { WindowMetrics.new 1000 with failure_count := 3 }

/-- Store holding `frt3Config` and `threeFailMetrics`. -/
def threeFailStorage : Storage :=
  { Storage.empty with config := some frt3Config
                       currentMetrics := some threeFailMetrics }

/-- A window started at time 0 that has recorded five failures. -/
def staleMetrics : WindowMetrics :=
  { WindowMetrics.new 0 with failure_count := 5 }

/-- Store under the default configuration whose current window
(`staleMetrics`) has long expired by time 1000. -/
def staleStorage : Storage :=
  { Storage.empty with currentMetrics := some staleMetrics }

/-- C9: `check_single_payout_threshold` mutates no stored state, and its
verdict is a breach exactly when `amount ≥ max_single_payout` (inclusive
boundary), a comparison that reads only the configuration — the window
counters do not enter the decision. -/
theorem C9_check_single_payout_boundary (s : Storage) (now : Nat) (amount : Int) :
    (check_single_payout_threshold s now amount).1 = s ∧
    isBreach (check_single_payout_threshold s now amount).2 =
      decide ((get_threshold_config s).max_single_payout ≤ amount) := by
  unfold check_single_payout_threshold
  constructor
  · dsimp only
    split <;> rfl
  · dsimp only
    split <;> rename_i h <;> simp [isBreach, ge_iff_le] at h ⊢ <;> omega

/-- C10: `reset_metrics` replaces only the current-metrics record with a
fresh zeroed window at `now`; the previous-window archive, configuration,
cooldown lockout end and cooldown multiplier are untouched, so an active
cooldown stays active and the escalation multiplier keeps its value. -/
theorem C10_reset_metrics_frame (s : Storage) (now : Nat) :
    (reset_metrics s now).currentMetrics = some (WindowMetrics.new now) ∧
    (reset_metrics s now).previousMetrics = s.previousMetrics ∧
    (reset_metrics s now).config = s.config ∧
    (reset_metrics s now).lastCooldownEnd = s.lastCooldownEnd ∧
    (reset_metrics s now).cooldownMultiplier = s.cooldownMultiplier ∧
    (∀ t, is_cooldown_active (reset_metrics s now) t = is_cooldown_active s t) ∧
    get_cooldown_multiplier (reset_metrics s now) = get_cooldown_multiplier s := by
  refine ⟨rfl, rfl, rfl, rfl, rfl, fun t => rfl, rfl⟩

/-- C8: `apply_cooldown` at time `now` with stored multiplier `m` sets the
lockout end to exactly `now + cooldown_period * m`; afterwards
`is_cooldown_active` holds exactly at times strictly before that end;
`increase_cooldown_multiplier` multiplies the stored multiplier by
`config.cooldown_multiplier`; `reset_cooldown_multiplier` sets it to 1. -/
theorem C8_cooldown_escalation (s : Storage) (now : Nat) :
    (apply_cooldown s now).lastCooldownEnd =
      some (now + (get_threshold_config s).cooldown_period_secs *
              get_cooldown_multiplier s) ∧
    (∀ t, is_cooldown_active (apply_cooldown s now) t =
      decide (t < now + (get_threshold_config s).cooldown_period_secs *
                get_cooldown_multiplier s)) ∧
    get_cooldown_multiplier (increase_cooldown_multiplier s) =
      get_cooldown_multiplier s * (get_threshold_config s).cooldown_multiplier ∧
    get_cooldown_multiplier (reset_cooldown_multiplier s) = 1 := by
  refine ⟨rfl, fun t => ?_, rfl, rfl⟩
  simp [is_cooldown_active, apply_cooldown]

/-- C4: the breach counter is not monotonically incrementing.  With
`failure_rate_threshold = 3` and three failures already recorded, two
consecutive `check_thresholds` calls in the same window both return a
breach carrying `breach_count = 1`: the stored window counter is never
incremented, so the second result is not strictly larger. -/
theorem C4_breach_count_constant :
    (check_thresholds threeFailStorage 1000).2 =
      .error { metric_type := "failure", threshold_value := 3, actual_value := 3
               timestamp := 1000, breach_count := 1 } ∧
    (check_thresholds (check_thresholds threeFailStorage 1000).1 1000).2 =
      .error { metric_type := "failure", threshold_value := 3, actual_value := 3
               timestamp := 1000, breach_count := 1 } := by
  exact ⟨rfl, rfl⟩

/-- C2 counterexample: a configuration with `cooldown_multiplier = 0`
violates the data model's `cooldown_multiplier ≥ 1` range, yet
`set_threshold_config` accepts and stores it — `validate` never inspects
that field, contradicting the claim that any out-of-range field is
rejected. -/
theorem C2_counterexample_multiplier_unchecked :
    badMultConfig.cooldown_multiplier < 1 ∧
    (set_threshold_config Storage.empty badMultConfig).2 = .ok () ∧
    (set_threshold_config Storage.empty badMultConfig).1.config = some badMultConfig := by
  exact ⟨Nat.zero_lt_one, rfl, rfl⟩

/-- C2 (amended): `set_threshold_config` stores the configuration and
returns `Ok` exactly when the five checked ranges hold
(`failure_rate_threshold` 1..1000, `outflow_volume_threshold > 0`,
`max_single_payout > 0`, `time_window` 10..86400 s, `cooldown_period`
60..3600 s); when any of these fails it returns
`ERR_INVALID_THRESHOLD_CONFIG` and leaves the store unchanged.
`cooldown_multiplier` is not validated. -/
theorem C2_set_config_checked_ranges (s : Storage) (c : ThresholdConfig) :
    (CheckedRanges c →
      set_threshold_config s c = ({ s with config := some c }, .ok ())) ∧
    (¬ CheckedRanges c →
      set_threshold_config s c = (s, .error ERR_INVALID_THRESHOLD_CONFIG)) := by
  have hval : (c.validate = .ok ()) ↔ CheckedRanges c := by
    unfold ThresholdConfig.validate CheckedRanges
    split_ifs <;> simp <;> omega
  constructor
  · intro h
    unfold set_threshold_config
    rw [hval.mpr h]
  · intro h
    unfold set_threshold_config
    rcases hv : c.validate with e | u
    · rfl
    · exact absurd (hval.mp (by rw [hv])) h

/-- Witness for C2: the default configuration satisfies all five checked
ranges and is stored with an `Ok` result. -/
theorem C2_set_config_checked_ranges_witness :
    CheckedRanges ThresholdConfig.default ∧
    set_threshold_config Storage.empty ThresholdConfig.default =
      ({ Storage.empty with config := some ThresholdConfig.default }, .ok ()) := by
  exact ⟨by decide, (C2_set_config_checked_ranges Storage.empty ThresholdConfig.default).1 (by decide)⟩

/-- C1: after window rotation, `check_thresholds` tests the three
thresholds in fixed priority order — failure count, then total outflow,
then max single outflow, every boundary inclusive — returning the first
breach found, and `Ok` exactly when none holds. -/
theorem C1_check_thresholds_priority (s : Storage) (now : Nat) :
    ((∃ b, (check_thresholds s now).2 = .error b ∧ b.metric_type = "failure") ↔
      (get_threshold_config s).failure_rate_threshold ≤
        (get_current_metrics (rotate_window_if_needed s now) now).failure_count) ∧
    ((∃ b, (check_thresholds s now).2 = .error b ∧ b.metric_type = "outflow") ↔
      ((get_current_metrics (rotate_window_if_needed s now) now).failure_count <
        (get_threshold_config s).failure_rate_threshold ∧
       (get_threshold_config s).outflow_volume_threshold ≤
        (get_current_metrics (rotate_window_if_needed s now) now).total_outflow)) ∧
    ((∃ b, (check_thresholds s now).2 = .error b ∧ b.metric_type = "single") ↔
      ((get_current_metrics (rotate_window_if_needed s now) now).failure_count <
        (get_threshold_config s).failure_rate_threshold ∧
       (get_current_metrics (rotate_window_if_needed s now) now).total_outflow <
        (get_threshold_config s).outflow_volume_threshold ∧
       (get_threshold_config s).max_single_payout ≤
        (get_current_metrics (rotate_window_if_needed s now) now).max_single_outflow)) ∧
    ((check_thresholds s now).2 = .ok () ↔
      ((get_current_metrics (rotate_window_if_needed s now) now).failure_count <
        (get_threshold_config s).failure_rate_threshold ∧
       (get_current_metrics (rotate_window_if_needed s now) now).total_outflow <
        (get_threshold_config s).outflow_volume_threshold ∧
       (get_current_metrics (rotate_window_if_needed s now) now).max_single_outflow <
        (get_threshold_config s).max_single_payout)) := by
  have hcfg : get_threshold_config (rotate_window_if_needed s now) =
      get_threshold_config s := by
    unfold rotate_window_if_needed
    dsimp only
    split <;> rfl
  unfold check_thresholds
  dsimp only
  rw [hcfg]
  split_ifs with h1 h2 h3 <;> refine ⟨?_, ?_, ?_, ?_⟩ <;>
    simp_all [ge_iff_le, not_le]

/-- C3 counterexample: `check_single_payout_threshold` does not rotate the
window.  Under the default configuration (`time_window = 600`) the window
in `staleStorage` started at 0 and has five failures; at time 1000 the
window has expired, yet the call leaves the store exactly as it was — the
stale window is neither archived nor replaced by a fresh one starting at
1000. -/
theorem C3_counterexample_single_payout_no_rotation :
    1000 ≥ staleMetrics.window_start +
      (get_threshold_config staleStorage).time_window_secs ∧
    (check_single_payout_threshold staleStorage 1000 1).1 = staleStorage ∧
    staleStorage.currentMetrics = some staleMetrics ∧
    staleMetrics.window_start ≠ 1000 ∧
    staleMetrics.failure_count ≠ 0 ∧
    staleStorage.previousMetrics = none := by
  exact ⟨by decide, rfl, rfl, by decide, by decide, rfl⟩

/-- C3 (amended): the window-touching calls `record_success`,
`record_failure`, `record_outflow` and `check_thresholds` — but not
`check_single_payout`, which performs no rotation — first compare `now`
against `window_start + time_window`.  When the window has expired they
archive it as the previous window and act on a fresh window starting at
`now` with all counters zero; when it has not expired they leave the
archive alone and change the current window only by their own
single-field effect, so rotation remains the only implicit counter
reset. -/
theorem C3_window_rotation (s : Storage) (now : Nat) (amount : Int) :
    (now ≥ (get_current_metrics s now).window_start +
        (get_threshold_config s).time_window_secs →
      ((record_operation_success s now).previousMetrics =
          some (get_current_metrics s now) ∧
       (record_operation_success s now).currentMetrics =
          some { WindowMetrics.new now with success_count := 1 }) ∧
      ((record_operation_failure s now).previousMetrics =
          some (get_current_metrics s now) ∧
       (record_operation_failure s now).currentMetrics =
          some { WindowMetrics.new now with failure_count := 1 }) ∧
      ((record_outflow s now amount).previousMetrics =
          some (get_current_metrics s now) ∧
       (record_outflow s now amount).currentMetrics =
          some { WindowMetrics.new now with
                   total_outflow := satAddI128 0 amount
                   max_single_outflow := if amount > 0 then amount else 0 }) ∧
      ((check_thresholds s now).1.previousMetrics =
          some (get_current_metrics s now) ∧
       (check_thresholds s now).1.currentMetrics =
          some (WindowMetrics.new now))) ∧
    (now < (get_current_metrics s now).window_start +
        (get_threshold_config s).time_window_secs →
      ((record_operation_success s now).previousMetrics = s.previousMetrics ∧
       (record_operation_success s now).currentMetrics =
          some { get_current_metrics s now with
                   success_count := (get_current_metrics s now).success_count + 1 }) ∧
      ((record_operation_failure s now).previousMetrics = s.previousMetrics ∧
       (record_operation_failure s now).currentMetrics =
          some { get_current_metrics s now with
                   failure_count := (get_current_metrics s now).failure_count + 1 }) ∧
      ((record_outflow s now amount).previousMetrics = s.previousMetrics ∧
       (record_outflow s now amount).currentMetrics =
          some { get_current_metrics s now with
                   total_outflow :=
                     satAddI128 (get_current_metrics s now).total_outflow amount
                   max_single_outflow :=
                     if amount > (get_current_metrics s now).max_single_outflow
                     then amount else (get_current_metrics s now).max_single_outflow }) ∧
      (check_thresholds s now).1 = s) := by
  have hchk : (check_thresholds s now).1 = rotate_window_if_needed s now := by
    unfold check_thresholds
    dsimp only
    split_ifs <;> rfl
  constructor
  · intro h
    have hrot : rotate_window_if_needed s now =
        { s with previousMetrics := some (get_current_metrics s now)
                 currentMetrics := some (WindowMetrics.new now) } := by
      unfold rotate_window_if_needed
      dsimp only
      rw [if_pos h]
    refine ⟨⟨?_, ?_⟩, ⟨?_, ?_⟩, ⟨?_, ?_⟩, ?_, ?_⟩ <;>
      simp [record_operation_success, record_operation_failure, record_outflow,
            hchk, hrot, get_current_metrics, WindowMetrics.new] <;>
      try (split_ifs <;> simp_all)
  · intro h
    have hrot : rotate_window_if_needed s now = s := by
      unfold rotate_window_if_needed
      dsimp only
      rw [if_neg (by omega)]
    refine ⟨⟨?_, ?_⟩, ⟨?_, ?_⟩, ⟨?_, ?_⟩, ?_⟩ <;>
      first
        | (unfold record_outflow
           rw [hrot]
           dsimp only
           split_ifs <;> rfl)
        | simp [record_operation_success, record_operation_failure, record_outflow,
                hchk, hrot]

/-- Witness for C3 (amended): at time 1000 the stale window of
`staleStorage` (started at 0, default 600 s window) has expired, and
recording a success archives it and starts a fresh window holding the
single success. -/
theorem C3_window_rotation_witness :
    1000 ≥ (get_current_metrics staleStorage 1000).window_start +
      (get_threshold_config staleStorage).time_window_secs ∧
    (record_operation_success staleStorage 1000).previousMetrics =
      some staleMetrics ∧
    (record_operation_success staleStorage 1000).currentMetrics =
      some { WindowMetrics.new 1000 with success_count := 1 } := by
  have h := (C3_window_rotation staleStorage 1000 7).1 (by decide)
  exact ⟨by decide, h.1.1, h.1.2⟩

/-- C7: for a valid retry policy the backoff delay never exceeds
`max_delay`; with `jitter_percent = 0` it is exactly
`min(initial_delay * backoff_multiplier ^ attempt, max_delay)` and is
monotonically non-decreasing in the attempt index. -/
theorem C7_backoff_bounds (c : RetryConfig) (now k j : Nat) (h : c.Valid) :
    calculate_backoff_delay c k now ≤ c.max_delay_ms ∧
    (c.jitter_percent = 0 →
      calculate_backoff_delay c k now =
        min (c.initial_delay_ms * c.backoff_multiplier ^ k) c.max_delay_ms ∧
      (k ≤ j → calculate_backoff_delay c k now ≤ calculate_backoff_delay c j now)) := by
  obtain ⟨-, -, -, hm, -⟩ := h
  refine ⟨?_, fun hj0 => ⟨?_, fun hkj => ?_⟩⟩
  · unfold calculate_backoff_delay applyJitter
    dsimp only
    split_ifs
    · exact min_le_right _ _
    · exact min_le_right _ _
  · unfold calculate_backoff_delay
    rw [if_pos hj0]
  · unfold calculate_backoff_delay
    rw [if_pos hj0, if_pos hj0]
    exact min_le_min (Nat.mul_le_mul_left _ (Nat.pow_le_pow_right hm hkj)) le_rfl

/-- Witness for C7: the default-shaped policy with jitter 0 is valid and
its attempt-2 delay is exactly the capped base formula. -/
theorem C7_backoff_bounds_witness :
    RetryConfig.Valid ⟨3, 100, 5000, 2, 0⟩ ∧
    calculate_backoff_delay ⟨3, 100, 5000, 2, 0⟩ 2 1000 =
      min (100 * 2 ^ 2) 5000 := by
  exact ⟨by decide,
    ((C7_backoff_bounds ⟨3, 100, 5000, 2, 0⟩ 1000 2 3 (by decide)).2 rfl).1⟩

/-- C6: circuit breaker transitions.  Five consecutive failures from a
fresh Closed breaker (threshold 5) open it, and after four it is still
Closed; a success while Closed resets the failure count and stays Closed;
once `timeout_duration` has elapsed since `opened_at`, `is_request_allowed`
moves Open to Half-Open and allows the request; one failure in Half-Open
re-opens (re-arming `opened_at`); successes in Half-Open accumulate, and
reaching `success_threshold` closes the breaker with both counters
reset. -/
theorem C6_circuit_breaker_transitions (b : CircuitBreaker) (now : Nat) :
    (b.state = .Closed → b.failure_count = 0 → b.failure_threshold = 5 →
      (recordFailure (recordFailure (recordFailure (recordFailure
        (recordFailure b now) now) now) now) now).state = .Open ∧
      (recordFailure (recordFailure (recordFailure
        (recordFailure b now) now) now) now).state = .Closed) ∧
    (b.state = .Closed → recordSuccess b now = { b with failure_count := 0 }) ∧
    (b.state = .Open → now ≥ b.opened_at + b.timeout_duration →
      is_request_allowed b now =
        ({ b with state := .HalfOpen, success_count := 0 }, true)) ∧
    (b.state = .HalfOpen →
      recordFailure b now = { b with state := .Open, opened_at := now }) ∧
    (b.state = .HalfOpen → b.success_count + 1 ≥ b.success_threshold →
      recordSuccess b now =
        { b with state := .Closed, failure_count := 0, success_count := 0 }) ∧
    (b.state = .HalfOpen → b.success_count + 1 < b.success_threshold →
      recordSuccess b now = { b with success_count := b.success_count + 1 }) := by
  obtain ⟨st, fc, ft, sc, sth, td, oa⟩ := b
  refine ⟨?_, ?_, ?_, ?_, ?_, ?_⟩
  · intro h1 h2 h3
    dsimp only at h1 h2 h3
    subst h1; subst h2; subst h3
    exact ⟨rfl, rfl⟩
  · intro h1
    dsimp only at h1
    subst h1
    rfl
  · intro h1 h2
    dsimp only at h1 h2
    subst h1
    unfold is_request_allowed
    rw [if_pos h2]
  · intro h1
    dsimp only at h1
    subst h1
    rfl
  · intro h1 h2
    dsimp only at h1 h2
    subst h1
    unfold recordSuccess
    dsimp only
    rw [if_pos h2]
  · intro h1 h2
    dsimp only at h1 h2
    subst h1
    unfold recordSuccess
    dsimp only
    rw [if_neg (by omega)]

/-- Witness for C6: a concrete fresh Closed breaker with threshold 5 opens
after five recorded failures. -/
theorem C6_circuit_breaker_transitions_witness :
    (recordFailure (recordFailure (recordFailure (recordFailure (recordFailure
      (⟨.Closed, 0, 5, 0, 1, 60, 0⟩ : CircuitBreaker) 100) 100) 100) 100) 100).state =
      .Open := by
  exact ((C6_circuit_breaker_transitions ⟨.Closed, 0, 5, 0, 1, 60, 0⟩ 100).1
    rfl rfl rfl).1

/-- The retry loop never makes more invocations than it has attempts. -/
theorem retryFrom_count_le {T : Type} (now : Nat) (op : Nat → Except RecoveryError T) :
    ∀ (r : Nat) (i : Nat) (b : CircuitBreaker), (retryFrom now op b i r).2.1 ≤ r := by
  intro r
  induction r with
  | zero => intro i b; exact Nat.le_refl 0
  | succ r ih =>
    intro i b
    simp only [retryFrom]
    cases hop : op i with
    | ok v => simp
    | error e =>
      cases hcl : classify_error e with
      | Transient =>
        simp only [hcl]
        by_cases hr : r = 0
        · rw [if_pos hr]
          simp
        · rw [if_neg hr]
          dsimp only
          have := ih (i + 1) (recordFailure b now)
          omega
      | Permanent =>
        simp only [hcl]
        simp
      | PartialCls =>
        simp only [hcl]
        simp

/-- If every available attempt fails with a Transient error, the loop uses
all of them and ends in `MaxRetriesExceeded`. -/
theorem retryFrom_all_transient {T : Type} (now : Nat) (op : Nat → Except RecoveryError T) :
    ∀ (r : Nat) (i : Nat) (b : CircuitBreaker), 1 ≤ r →
      (∀ j, j < r → ∃ e, op (i + j) = .error e ∧ classify_error e = .Transient) →
      (retryFrom now op b i r).1 = .Failed .MaxRetriesExceeded ∧
      (retryFrom now op b i r).2.1 = r := by
  intro r
  induction r with
  | zero => intro i b h; exact absurd h (by omega)
  | succ r ih =>
    intro i b _ hall
    obtain ⟨e, he, hcl⟩ := hall 0 (Nat.succ_pos r)
    rw [Nat.add_zero] at he
    simp only [retryFrom, he, hcl]
    by_cases hr : r = 0
    · subst hr
      simp
    · rw [if_neg hr]
      dsimp only
      have hrec := ih (i + 1) (recordFailure b now) (by omega)
        (fun j hj => by
          have h2 := hall (j + 1) (by omega)
          rwa [show i + (j + 1) = i + 1 + j by omega] at h2)
      exact ⟨hrec.1, by rw [hrec.2]⟩

/-- If attempt `k` fails with a Permanent error after `k` Transient
failures, the loop stops right there: result `Failed e`, `k + 1`
invocations. -/
theorem retryFrom_first_permanent {T : Type} (now : Nat)
    (op : Nat → Except RecoveryError T) (e : RecoveryError) :
    ∀ (k : Nat) (i : Nat) (r : Nat) (b : CircuitBreaker), k < r →
      op (i + k) = .error e → classify_error e = .Permanent →
      (∀ j, j < k → ∃ e', op (i + j) = .error e' ∧ classify_error e' = .Transient) →
      (retryFrom now op b i r).1 = .Failed e ∧
      (retryFrom now op b i r).2.1 = k + 1 := by
  intro k
  induction k with
  | zero =>
    intro i r b hk hop hperm _
    obtain ⟨r', rfl⟩ : ∃ r', r = r' + 1 := ⟨r - 1, by omega⟩
    rw [Nat.add_zero] at hop
    simp [retryFrom, hop, hperm]
  | succ k ih =>
    intro i r b hk hop hperm hpre
    obtain ⟨r', rfl⟩ : ∃ r', r = r' + 1 := ⟨r - 1, by omega⟩
    obtain ⟨e0, he0, hcl0⟩ := hpre 0 (Nat.succ_pos k)
    rw [Nat.add_zero] at he0
    simp only [retryFrom, he0, hcl0]
    rw [if_neg (show r' ≠ 0 by omega)]
    dsimp only
    have hrec := ih (i + 1) r' (recordFailure b now) (by omega)
      (by rw [show i + 1 + k = i + (k + 1) by omega]; exact hop) hperm
      (fun j hj => by
        have h2 := hpre (j + 1) (by omega)
        rwa [show i + (j + 1) = i + 1 + j by omega] at h2)
    exact ⟨hrec.1, by rw [hrec.2]⟩

/-- C5: the retry executor makes at most `max_attempts` invocations; when
the circuit breaker blocks it returns `CircuitBreakerOpen` with zero
invocations; when every attempt fails Transient it returns
`Failed MaxRetriesExceeded` having used exactly `max_attempts`
invocations; and a Permanent failure at attempt `k` stops the loop at
`k + 1` invocations with `Failed` carrying that error. -/
theorem C5_execute_with_retry_guarantees {T : Type} (b : CircuitBreaker) (now : Nat)
    (c : RetryConfig) (op : Nat → Except RecoveryError T) (k : Nat) (e : RecoveryError) :
    (execute_with_retry b now c op).2.1 ≤ c.max_attempts ∧
    ((is_request_allowed b now).2 = false →
      (execute_with_retry b now c op).1 = .CircuitBreakerOpen ∧
      (execute_with_retry b now c op).2.1 = 0) ∧
    (1 ≤ c.max_attempts →
      (∀ j, j < c.max_attempts → ∃ e', op j = .error e' ∧ classify_error e' = .Transient) →
      (is_request_allowed b now).2 = true →
      (execute_with_retry b now c op).1 = .Failed .MaxRetriesExceeded ∧
      (execute_with_retry b now c op).2.1 = c.max_attempts) ∧
    (k < c.max_attempts → op k = .error e → classify_error e = .Permanent →
      (∀ j, j < k → ∃ e', op j = .error e' ∧ classify_error e' = .Transient) →
      (is_request_allowed b now).2 = true →
      (execute_with_retry b now c op).1 = .Failed e ∧
      (execute_with_retry b now c op).2.1 = k + 1) := by
  unfold execute_with_retry
  dsimp only
  refine ⟨?_, ?_, ?_, ?_⟩
  · split_ifs with hallow
    · exact retryFrom_count_le now op c.max_attempts 0 (is_request_allowed b now).1
    · exact Nat.zero_le _
  · intro hblk
    rw [if_neg (by simp [hblk])]
    exact ⟨rfl, rfl⟩
  · intro h1 h2 hallow
    rw [if_pos hallow]
    exact retryFrom_all_transient now op c.max_attempts 0 (is_request_allowed b now).1 h1
      (fun j hj => by simpa using h2 j hj)
  · intro hk hop hperm hpre hallow
    rw [if_pos hallow]
    exact retryFrom_first_permanent now op e k 0 c.max_attempts
      (is_request_allowed b now).1 hk (by simpa using hop) hperm
      (fun j hj => by simpa using hpre j hj)

/-- Witness for C5: a Closed breaker allows the request, every attempt
times out, and a 3-attempt policy yields `Failed MaxRetriesExceeded`
after exactly 3 invocations. -/
theorem C5_execute_with_retry_guarantees_witness :
    (execute_with_retry (⟨.Closed, 0, 5, 0, 1, 60, 0⟩ : CircuitBreaker) 0
        ⟨3, 100, 5000, 2, 0⟩
        (fun _ => (.error .NetworkTimeout : Except RecoveryError Nat))).1 =
      .Failed .MaxRetriesExceeded ∧
    (execute_with_retry (⟨.Closed, 0, 5, 0, 1, 60, 0⟩ : CircuitBreaker) 0
        ⟨3, 100, 5000, 2, 0⟩
        (fun _ => (.error .NetworkTimeout : Except RecoveryError Nat))).2.1 = 3 := by
  exact (C5_execute_with_retry_guarantees ⟨.Closed, 0, 5, 0, 1, 60, 0⟩ 0
      ⟨3, 100, 5000, 2, 0⟩ (fun _ => (.error .NetworkTimeout : Except RecoveryError Nat))
      0 .NetworkTimeout).2.2.1
    (by decide) (fun j hj => ⟨.NetworkTimeout, rfl, rfl⟩) rfl

end Grainlify
